import Mathlib

/-!
Verification of the signal-based event bus engine
(`projects/angular-libs/event-bus/src/lib/event-bus.ts`).

The source file contains two historical variants of `EventBusService`.
We refer to them as V1 (the earlier one: synchronous effect creation in
`on`, per-source-key registration in `combineLatest`) and V2 (the later
one: deferred watcher installation in `on` with a cancelled-before-install
flag, an `unsubscribeOn` tracker, and composite-key registration in
`combineLatest`).

The reactive-primitive runtime (Angular signals / computed / effects) is
an external collaborator that is not part of the repository source.
Following the specification (sections 5 and 9), it is modelled as an
explicit observer graph with synchronous push notification: emitting a
key writes the cell and synchronously runs every live watcher that
depends on that key, in creation order; a watcher runs only on emissions
that occur after it was installed.

JavaScript values carried as payloads are modelled by `Val`, which has a
first-class `undef` constructor so that the sentinel `NOT_EMITTED` stays
distinguishable from a genuinely `undefined` payload at the cell level,
exactly as in the code (a private `Symbol` versus `undefined`).
-/

namespace EventBus

/-- A JavaScript-like payload value; `undef` models `undefined`. -/
inductive Val where
  | undef : Val
  | num : Int → Val
  | str : String → Val
deriving DecidableEq, Repr

/-- The event envelope `BusEvent` from `event-bus.models.ts`:
key, payload and emission timestamp. -/
structure BusEvent where
  key : String
  payload : Val
  timestamp : Nat
deriving DecidableEq, Repr

/-- A store cell holds `none` for the `NOT_EMITTED` sentinel or the last
emitted event. The keyed store is an association list, created on first
write. -/
abbrev Cells := List (String × Option BusEvent)

/-- Reads a cell; a key that was never written reads as `NOT_EMITTED`
(`getSignal` creates cells initialized to the sentinel on access). -/
def lookupCell (cells : Cells) (k : String) : Option BusEvent :=
  match cells.find? (fun c => c.1 == k) with
  | none => none
  | some c => c.2

/-- Writes a cell, creating it if missing (the `getSignal` + `set` path
of `emit`, or a reset). -/
def setCell (cells : Cells) (k : String) (v : Option BusEvent) : Cells :=
  if cells.any (fun c => c.1 == k) then
    cells.map (fun c => if c.1 == k then (k, v) else c)
  else
    cells ++ [(k, v)]

/-- Behaviour of a consumer callback, deeply embedded so that dispatch
can be interpreted: it may succeed doing nothing, synchronously emit
further events on the bus, throw synchronously, or return a rejected
promise. -/
inductive CbSpec where
  | pure : CbSpec
  | emitting : List (String × Val) → CbSpec
  | syncThrow : CbSpec
  | asyncReject : CbSpec
deriving DecidableEq, Repr

/-- Observable trace entries: callback invocations (with what the
callback received) and reports to the diagnostic sink (`console.error`). -/
inductive LogEntry where
  | invokedEvt : Nat → BusEvent → LogEntry
  | invokedVal : Nat → Val → LogEntry
  | invokedList : Nat → List Val → LogEntry
  | invokedEvts : Nat → List BusEvent → LogEntry
  | errorReported : Nat → LogEntry
deriving DecidableEq, Repr

/-- One `combineLatest` source: a key and an optional payload transform. -/
structure Source where
  key : String
  transform : Option (Val → Val)

/-- Applies an optional transform (identity when absent). -/
def applyTf (tf : Option (Val → Val)) (v : Val) : Val :=
  match tf with
  | none => v
  | some f => f v

/-- The behaviour of one registered reactive effect. `mainV2` is the
main effect of V2 `on` (also used by `once` via the `isOnce` flag);
`mainV1` is the effect of V1 `on`, which guards dispatch on the computed
payload being distinct from `undefined`; `tracker` is the
`unsubscribeOn` watcher of V2 with its attach-time snapshot; the two
`combine` kinds are the `combineLatest` effects of each variant. -/
inductive WKind where
  | mainV2 : Nat → String → Option (Val → Val) → CbSpec → Bool → WKind
  | mainV1 : String → Option (Val → Val) → CbSpec → WKind
  | tracker : Nat → List String → List (Option BusEvent) → WKind
  | combineV2 : List Source → CbSpec → WKind
  | combineV1 : List Source → CbSpec → WKind

/-- A reactive effect (`EffectRef`) with its destroyed flag. -/
structure Watcher where
  id : Nat
  kind : WKind
  destroyed : Bool

/-- The deferred-installation state machine of a V2 `on` subscription. -/
inductive SubPhase where
  | pendingInstall : SubPhase
  | cancelledBeforeInstall : SubPhase
  | installed : SubPhase
deriving DecidableEq, Repr

/-- Closure state of one V2 `on`/`once` subscription: what `removeMain`
and `removeTracker` point at, plus the pending/cancelled phase. -/
structure SubRec where
  hid : Nat
  key : String
  tf : Option (Val → Val)
  cb : CbSpec
  isOnce : Bool
  unsubOn : Option (List String)
  phase : SubPhase
  mainId : Option Nat
  trackerId : Option (Nat × String)

/-- The whole engine state: keyed store, subscription registry
(`effects` map), the live effect graph, V2 subscription closures, a
fresh-id counter, the clock (`Date.now()`), the observable trace and a
flag recording that an uncaught exception escaped to the emitter. -/
structure BusState where
  cells : Cells
  registry : List (String × List Nat)
  watchers : List Watcher
  subs : List SubRec
  nextId : Nat
  now : Nat
  log : List LogEntry
  panicked : Bool

/-- The empty engine right after construction. -/
def st0 : BusState :=
  { cells := [], registry := [], watchers := [], subs := []
    nextId := 0, now := 0, log := [], panicked := false }

/-- Registry lookup (`this.effects.get(key)`). -/
def lookupReg (r : List (String × List Nat)) (k : String) : Option (List Nat) :=
  (r.find? (fun e => e.1 == k)).map (·.2)

/-- Registers an effect id under a key (`addEffect`): create the list if
missing, push at the end. -/
def regAdd (r : List (String × List Nat)) (k : String) (i : Nat) :
    List (String × List Nat) :=
  if r.any (fun e => e.1 == k) then
    r.map (fun e => if e.1 == k then (e.1, e.2 ++ [i]) else e)
  else
    r ++ [(k, [i])]

/-- The deregistration part of the closure returned by `addEffect`:
splice out the first occurrence of the id and delete the key when its
list becomes empty. -/
def regRemoveOne (r : List (String × List Nat)) (k : String) (i : Nat) :
    List (String × List Nat) :=
  match lookupReg r k with
  | none => r
  | some ids =>
    let ids1 := ids.erase i
    if ids1 = [] then r.filter (fun e => !(e.1 == k))
    else r.map (fun e => if e.1 == k then (e.1, ids1) else e)

/-- Deletes a whole registry key (`this.effects.delete(key)`). -/
def regDeleteKey (r : List (String × List Nat)) (k : String) :
    List (String × List Nat) :=
  r.filter (fun e => !(e.1 == k))

/-- All effect ids currently registered, across every key. -/
def regAllIds (r : List (String × List Nat)) : List Nat :=
  (r.map Prod.snd).flatten

/-- Marks one effect destroyed (`EffectRef.destroy()`); destruction is
idempotent and does not remove the watcher from the graph node list,
it only stops it from ever running again. -/
def destroyW (ws : List Watcher) (i : Nat) : List Watcher :=
  ws.map (fun w => if w.id == i then { w with destroyed := true } else w)

/-- Destroy plus deregister: the full closure returned by `addEffect`. -/
def removeEffect (st : BusState) (k : String) (i : Nat) : BusState :=
  { st with watchers := destroyW st.watchers i
            registry := regRemoveOne st.registry k i }

/-- Appends a trace entry. -/
def pushLog (st : BusState) (e : LogEntry) : BusState :=
  { st with log := st.log ++ [e] }

def findSub (st : BusState) (hid : Nat) : Option SubRec :=
  st.subs.find? (fun s => s.hid == hid)

def updateSub (st : BusState) (hid : Nat) (f : SubRec → SubRec) : BusState :=
  { st with subs := st.subs.map (fun s => if s.hid == hid then f s else s) }

/-- The `removeBoth` closure of V2 `on`: destroy and deregister the main
effect (when installed) and the tracker effect (when present). -/
def removeBothCore (st : BusState) (hid : Nat) : BusState :=
  match findSub st hid with
  | none => st
  | some s =>
    let st1 := match s.mainId with
      | none => st
      | some mid => removeEffect st s.key mid
    match s.trackerId with
    | none => st1
    | some tt => removeEffect st1 tt.2 tt.1

/-- The unsubscribe handle returned by V2 `on`: before installation it
records the early cancellation (`destroyedBeforeCreate = true`); after
installation it runs `removeMain` (if any) and `removeTracker` (if any),
nulling the tracker reference. -/
def unsubHandleCore (st : BusState) (hid : Nat) : BusState :=
  match findSub st hid with
  | none => st
  | some s =>
    match s.phase with
    | SubPhase.pendingInstall =>
      updateSub st hid (fun s => { s with phase := SubPhase.cancelledBeforeInstall })
    | SubPhase.cancelledBeforeInstall => st
    | SubPhase.installed =>
      let st1 := match s.mainId with
        | none => st
        | some mid => removeEffect st s.key mid
      match s.trackerId with
      | none => st1
      | some tt =>
        updateSub (removeEffect st1 tt.2 tt.1) hid (fun s => { s with trackerId := none })

/-- The computed backing `combineLatestToSignal` (identical in both
variants): `undefined` while some source cell still holds the sentinel,
otherwise the position-matched list of transformed latest payloads. -/
def combineLatestToSignal (cells : Cells) (srcs : List Source) : Option (List Val) :=
  let values := srcs.map (fun s => lookupCell cells s.key)
  if values.any (fun v => v.isNone) then none
  else some ((srcs.zip values).map (fun p =>
    match p.2 with
    | none => Val.undef
    | some e => applyTf p.1.transform e.payload))

/-- The trigger condition of the `unsubscribeOn` tracker effect: some
tracked key whose attach-time snapshot was the sentinel now holds a
value. -/
def trackerTriggered (cells : Cells) (keys : List String)
    (snapshot : List (Option BusEvent)) : Bool :=
  (keys.zip snapshot).any (fun p => p.2.isNone && !(lookupCell cells p.1).isNone)

/-- Dependency set of a watcher: the keys whose emission re-runs it. -/
def dependsOn (k : String) : WKind → Bool
  | WKind.mainV2 _ key _ _ _ => key == k
  | WKind.mainV1 key _ _ => key == k
  | WKind.tracker _ keys _ => keys.contains k
  | WKind.combineV2 srcs _ => (srcs.map Source.key).contains k
  | WKind.combineV1 srcs _ => (srcs.map Source.key).contains k

/-- Runs a callback with the semantics of the enclosing dispatch site.
When `catchSync` is true (the V2 `dispatch` helper, which wraps the call
in try/catch, and the `once` wrapper) a synchronous throw is reported to
the diagnostic sink; otherwise (V1 `on` and both `combineLatest`
variants, which only attach `.catch` to promise results) it escapes to
the emitter. A rejected asynchronous result is always reported. The
`emitLower` argument interprets synchronous re-emissions performed by
the callback. -/
def runCbWith (emitLower : BusState → String → Val → BusState)
    (st : BusState) (wid : Nat) (cb : CbSpec) (catchSync : Bool) : BusState :=
  match cb with
  | CbSpec.pure => st
  | CbSpec.emitting es => es.foldl (fun acc p => emitLower acc p.1 p.2) st
  | CbSpec.syncThrow =>
    if catchSync then pushLog st (LogEntry.errorReported wid)
    else { st with panicked := true }
  | CbSpec.asyncReject => pushLog st (LogEntry.errorReported wid)

/-- Runs one watcher by id, translated from the corresponding effect
bodies in the source: the V2 main effect reads the cell, returns on the
sentinel and otherwise dispatches the transformed event (for `once`, the
wrapping callback first invokes the unsubscribe handle); the V1 main
effect additionally skips dispatch when the transformed payload is
`undefined`; the tracker tears both effects down when triggered; the
combine effects dispatch the combined value when it is defined. -/
def runOneWith (emitLower : BusState → String → Val → BusState)
    (st : BusState) (i : Nat) : BusState :=
  if st.panicked then st else
  match st.watchers.find? (fun w => w.id == i) with
  | none => st
  | some w =>
    if w.destroyed then st else
    match w.kind with
    | WKind.mainV2 hid key tf cb isOnce =>
      match lookupCell st.cells key with
      | none => st
      | some e =>
        let evt : BusEvent := { key := e.key, payload := applyTf tf e.payload, timestamp := e.timestamp }
        let st1 := if isOnce then unsubHandleCore st hid else st
        runCbWith emitLower (pushLog st1 (LogEntry.invokedEvt i evt)) i cb true
    | WKind.mainV1 key tf cb =>
      match lookupCell st.cells key with
      | none => st
      | some e =>
        let v := applyTf tf e.payload
        if v = Val.undef then st
        else runCbWith emitLower (pushLog st (LogEntry.invokedVal i v)) i cb false
    | WKind.tracker hid keys snapshot =>
      if trackerTriggered st.cells keys snapshot then removeBothCore st hid else st
    | WKind.combineV2 srcs cb =>
      match combineLatestToSignal st.cells srcs with
      | none => st
      | some vs =>
        let evts := (srcs.zip vs).map (fun p =>
          { key := p.1.key, payload := p.2, timestamp := st.now : BusEvent })
        runCbWith emitLower (pushLog st (LogEntry.invokedEvts i evts)) i cb false
    | WKind.combineV1 srcs cb =>
      match combineLatestToSignal st.cells srcs with
      | none => st
      | some vs =>
        runCbWith emitLower (pushLog st (LogEntry.invokedList i vs)) i cb false

/-- Modelled from the spec: the reactive runtime (Angular signals and
effects) is not part of the repository source; sections 5 and 9 of the
spec define its semantics as synchronous push. `emit` constructs a
`BusEvent` with the current clock, writes the cell and synchronously
runs every live dependent watcher in creation order. `fuel` bounds the
depth of reentrant emissions performed by callbacks; with fuel zero the
emission is dropped, so every theorem supplies enough fuel. -/
def emitF : Nat → BusState → String → Val → BusState
  | 0, st, _, _ => st
  | fuel + 1, st, k, v =>
    if st.panicked then st else
    let e : BusEvent := { key := k, payload := v, timestamp := st.now }
    let st1 := { st with cells := setCell st.cells k (some e), now := st.now + 1 }
    let ids := (st1.watchers.filter (fun w => !w.destroyed && dependsOn k w.kind)).map Watcher.id
    ids.foldl (runOneWith (emitF fuel)) st1

/-- Emits a list of payloads on one key, with the given per-emission
fuel. -/
def emitSeq (fuel : Nat) (st : BusState) (k : String) (ps : List Val) : BusState :=
  ps.foldl (fun acc v => emitF fuel acc k v) st

/-- The synchronous part of V2 `on`: records the subscription closure in
the pending state; the actual effect creation is deferred to the next
microtask (`Promise.resolve().then`), interpreted by `flush`. Returns
the handle identifying the closure of the returned unsubscribe
function. -/
def onV2 (st : BusState) (key : String) (tf : Option (Val → Val)) (cb : CbSpec)
    (isOnce : Bool) (unsubOn : Option (List String)) : BusState × Nat :=
  let hid := st.nextId
  ({ st with nextId := hid + 1
             subs := st.subs ++ [{ hid := hid, key := key, tf := tf, cb := cb
                                   isOnce := isOnce, unsubOn := unsubOn
                                   phase := SubPhase.pendingInstall
                                   mainId := none, trackerId := none }] }, hid)

/-- V2 `once`: `on` with the wrapping one-time callback (the wrapper
drops `unsubscribeOn`, since `once` passes only callback and transform
through). -/
def onceV2 (st : BusState) (key : String) (tf : Option (Val → Val)) (cb : CbSpec) :
    BusState × Nat :=
  onV2 st key tf cb true none

/-- The registry key of a V2 tracker effect (`Math.random()` replaced by
the fresh effect id, which plays the same uniquifying role). -/
def trackerKeyStr (keys : List String) (skey : String) (now tid : Nat) : String :=
  "__track__:" ++ String.intercalate "|" keys ++ ":" ++ skey ++ ":"
    ++ toString now ++ ":" ++ toString tid

/-- The deferred installation step of one V2 subscription (the body of
`Promise.resolve().then`): create and register the main effect; if the
unsubscribe handle already ran, immediately destroy and deregister it
and skip the tracker; otherwise install the `unsubscribeOn` tracker with
its attach-time snapshot. -/
def installSub (st : BusState) (hid : Nat) : BusState :=
  match findSub st hid with
  | none => st
  | some s =>
    match s.phase with
    | SubPhase.installed => st
    | SubPhase.cancelledBeforeInstall =>
      let wid := st.nextId
      let w : Watcher := { id := wid, kind := WKind.mainV2 hid s.key s.tf s.cb s.isOnce
                           destroyed := false }
      let st1 := { st with nextId := wid + 1
                           watchers := st.watchers ++ [w]
                           registry := regAdd st.registry s.key wid }
      let st2 := removeEffect st1 s.key wid
      updateSub st2 hid (fun s => { s with phase := SubPhase.installed, mainId := none })
    | SubPhase.pendingInstall =>
      let wid := st.nextId
      let w : Watcher := { id := wid, kind := WKind.mainV2 hid s.key s.tf s.cb s.isOnce
                           destroyed := false }
      let st1 := { st with nextId := wid + 1
                           watchers := st.watchers ++ [w]
                           registry := regAdd st.registry s.key wid }
      let st2 := updateSub st1 hid (fun s => { s with phase := SubPhase.installed
                                                      mainId := some wid })
      match s.unsubOn with
      | none => st2
      | some keys =>
        let snapshot := keys.map (fun k => lookupCell st2.cells k)
        let tid := st2.nextId
        let tkey := trackerKeyStr keys s.key st2.now tid
        let tw : Watcher := { id := tid, kind := WKind.tracker hid keys snapshot
                              destroyed := false }
        let st3 := { st2 with nextId := tid + 1
                              watchers := st2.watchers ++ [tw]
                              registry := regAdd st2.registry tkey tid }
        updateSub st3 hid (fun s => { s with trackerId := some (tid, tkey) })

/-- Runs every still-deferred installation in creation order (the
microtask queue draining). -/
def flush (st : BusState) : BusState :=
  ((st.subs.filter (fun s => !(s.phase == SubPhase.installed))).map SubRec.hid).foldl
    installSub st

/-- V1 `on`: creates and registers the main effect synchronously and
returns its id (the unsubscribe handle is the `addEffect` closure,
interpreted by `removeEffect`). -/
def onV1 (st : BusState) (key : String) (tf : Option (Val → Val)) (cb : CbSpec) :
    BusState × Nat :=
  let wid := st.nextId
  ({ st with nextId := wid + 1
             watchers := st.watchers ++ [{ id := wid, kind := WKind.mainV1 key tf cb
                                           destroyed := false }]
             registry := regAdd st.registry key wid }, wid)

/-- V2 `combineLatest`: creates the combine effect synchronously and
registers it under a unique composite key (`Math.random()` replaced by
the fresh effect id). Returns the composite key, which the unsubscribe
closure captures. -/
def combineLatestV2 (st : BusState) (srcs : List Source) (cb : CbSpec) :
    BusState × String :=
  let wid := st.nextId
  let ckey := "__combine__:" ++ String.intercalate "|" (srcs.map Source.key)
    ++ ":" ++ toString st.now ++ ":" ++ toString wid
  ({ st with nextId := wid + 1
             watchers := st.watchers ++ [{ id := wid, kind := WKind.combineV2 srcs cb
                                           destroyed := false }]
             registry := regAdd st.registry ckey wid }, ckey)

/-- The unsubscribe closure returned by V2 `combineLatest`: destroy
everything registered under the composite key and delete that key;
idempotent because the key is gone afterwards. -/
def combineV2Unsub (st : BusState) (ckey : String) : BusState :=
  match lookupReg st.registry ckey with
  | none => st
  | some ids =>
    { st with watchers := ids.foldl destroyW st.watchers
              registry := regDeleteKey st.registry ckey }

/-- V1 `combineLatest`: creates the combine effect synchronously and
registers the same effect once under each source key. -/
def combineLatestV1 (st : BusState) (srcs : List Source) (cb : CbSpec) :
    BusState × Nat :=
  let wid := st.nextId
  let w : Watcher := { id := wid, kind := WKind.combineV1 srcs cb, destroyed := false }
  let st1 := { st with nextId := wid + 1, watchers := st.watchers ++ [w] }
  ({ st1 with registry := srcs.foldl (fun r s => regAdd r s.key wid) st1.registry }, wid)

/-- The unsubscribe closure returned by V1 `combineLatest`: call the
per-source-key `addEffect` removers one after the other. -/
def combineV1Unsub (st : BusState) (srcs : List Source) (wid : Nat) : BusState :=
  srcs.foldl (fun acc s => removeEffect acc s.key wid) st

/-- `unsubscribe(key)` (identical in both variants): destroy every
effect registered under that exact key, then delete the key. -/
def unsubscribeKey (st : BusState) (k : String) : BusState :=
  match lookupReg st.registry k with
  | none => st
  | some ids =>
    { st with watchers := ids.foldl destroyW st.watchers
              registry := regDeleteKey st.registry k }

/-- `clearSubscriptions` / `unsubscribeAll`: destroy every registered
effect across every key, then clear the registry; store cells are left
untouched. -/
def clearSubscriptions (st : BusState) : BusState :=
  { st with watchers := (regAllIds st.registry).foldl destroyW st.watchers
            registry := [] }

/-- `latest(key)`: reads the cell without side effects; `undefined` on
the sentinel. -/
def latest (st : BusState) (k : String) : Option BusEvent :=
  lookupCell st.cells k

/-- The value of the computed returned by `onToSignal` (identical in
both variants): `undefined` on the sentinel, otherwise the transformed
latest payload. In the JavaScript value universe `undefined` is a
first-class value, so the result type is `Val` and a transformed payload
of `undefined` is indistinguishable from the never-emitted case. -/
def onToSignalVal (st : BusState) (k : String) (tf : Option (Val → Val)) : Val :=
  match lookupCell st.cells k with
  | none => Val.undef
  | some e => applyTf tf e.payload

/-- Modelled from the spec: `resetEvent` and `resetAllEvents` are listed
in the spec (sections 4.1 and 6) but absent from both variants of
`EventBusService` in the source. Faithful to the wording of the spec,
`resetEvent` rewrites the cell of the key back to `NOT_EMITTED` without
touching subscriptions. -/
def resetEvent (st : BusState) (k : String) : BusState :=
  { st with cells := setCell st.cells k none }

/-- Modelled from the spec: `resetAllEvents` performs the `resetEvent`
rewrite for every known key (every cell that exists in the store). -/
def resetAllEvents (st : BusState) : BusState :=
  { st with cells := st.cells.map (fun c => (c.1, none)) }

/-- Number of callback invocations of a given watcher visible in the
trace. -/
def countInvocations (log : List LogEntry) (wid : Nat) : Nat :=
  (log.filter (fun e =>
    match e with
    | LogEntry.invokedEvt i _ => i == wid
    | LogEntry.invokedVal i _ => i == wid
    | LogEntry.invokedList i _ => i == wid
    | LogEntry.invokedEvts i _ => i == wid
    | LogEntry.errorReported _ => false)).length

/-- Whether the watcher with the given id has been destroyed. -/
def watcherDestroyed (st : BusState) (i : Nat) : Bool :=
  match st.watchers.find? (fun w => w.id == i) with
  | none => false
  | some w => w.destroyed

/-- Callback behaviours that do not re-enter the bus. -/
def CbSimple : CbSpec → Prop
  | CbSpec.emitting _ => False
  | _ => True

/-- Trace entries a simple callback adds at a dispatch site that catches
synchronous throws. -/
def simpleTrace (cb : CbSpec) (wid : Nat) : List LogEntry :=
  match cb with
  | CbSpec.pure => []
  | CbSpec.emitting _ => []
  | CbSpec.syncThrow => [LogEntry.errorReported wid]
  | CbSpec.asyncReject => [LogEntry.errorReported wid]

/-- The registry-iff-live invariant of the claim on the subscription
registry: a watcher is registered exactly when it has not been
destroyed. -/
def RegIffLive (st : BusState) : Prop :=
  ∀ w ∈ st.watchers, (w.destroyed = false ↔ w.id ∈ regAllIds st.registry)

/-- The trace an early subscriber is expected to produce: one
`invokedEvt` per emitted payload, in emission order, timestamped with
the running clock. -/
def expectedEvts (i : Nat) (k : String) (tf : Option (Val → Val)) :
    Nat → List Val → List LogEntry
  | _, [] => []
  | now, v :: rest =>
    LogEntry.invokedEvt i { key := k, payload := applyTf tf v, timestamp := now }
      :: expectedEvts i k tf (now + 1) rest

/-- The trace two subscribers on the same key are expected to produce:
for each emitted payload one dispatch to each, in creation order. -/
def expectedEvts2 (i j : Nat) (k : String) (tf1 tf2 : Option (Val → Val)) :
    Nat → List Val → List LogEntry
  | _, [] => []
  | now, v :: rest =>
    LogEntry.invokedEvt i { key := k, payload := applyTf tf1 v, timestamp := now }
      :: LogEntry.invokedEvt j { key := k, payload := applyTf tf2 v, timestamp := now }
      :: expectedEvts2 i j k tf1 tf2 (now + 1) rest

/-- The value a single `combineLatest` source contributes once its cell
holds an event: its transformed latest payload. -/
def sourceValue (cells : Cells) (s : Source) : Val :=
  match lookupCell cells s.key with
  | none => Val.undef
  | some e => applyTf s.transform e.payload

/-- A concrete bus with two installed V2 `on("k")` subscriptions, the
first with a synchronously throwing callback. -/
def c3stA : BusState :=
  { cells := [], registry := [("k", [1, 2])]
    watchers := [{ id := 1, kind := WKind.mainV2 0 "k" none CbSpec.syncThrow false
                   destroyed := false },
                 { id := 2, kind := WKind.mainV2 0 "k" none CbSpec.pure false
                   destroyed := false }]
    subs := [], nextId := 3, now := 0, log := [], panicked := false }

/-- A concrete bus with one `combineLatest` watcher over `["k"]` whose
callback returns a rejected promise. -/
def c3stB : BusState :=
  { cells := [], registry := [("__combine__:k:0:1", [1])]
    watchers := [{ id := 1
                   kind := WKind.combineV2 [{ key := "k", transform := none }] CbSpec.asyncReject
                   destroyed := false }]
    subs := [], nextId := 2, now := 0, log := [], panicked := false }

/-- A concrete bus state holding one installed `on("k")` subscription,
used to instantiate hypothesis-bearing theorems. -/
def claim1Wst : BusState :=
  { cells := [], registry := [("k", [5])]
    watchers := [{ id := 5, kind := WKind.mainV2 0 "k" none CbSpec.pure false
                   destroyed := false }]
    subs := [], nextId := 6, now := 0, log := [], panicked := false }

lemma lookupCell_setCell_self (cells : Cells) (k : String) (v : Option BusEvent) :
    lookupCell (setCell cells k v) k = v := by
  unfold lookupCell setCell
  induction cells with
  | nil => simp
  | cons c cs ih =>
    by_cases hc : c.1 = k
    · simp [hc]
    · have hb : (c.1 == k) = false := by simp [hc]
      simp only [List.any_cons, hb, Bool.false_or, List.map_cons, List.find?_cons, List.cons_append]
      by_cases hcs : cs.any (fun c => c.1 == k)
      · simpa [hcs, hb] using ih
      · simpa [hcs, hb] using ih

lemma find_setCell_map (cells : Cells) (k k2 : String) (v : Option BusEvent)
    (h : k2 ≠ k) :
    (cells.map (fun c => if c.1 == k then (k, v) else c)).find? (fun c => c.1 == k2)
      = cells.find? (fun c => c.1 == k2) := by
  have h2 : ((k : String) == k2) = false := beq_eq_false_iff_ne.2 (Ne.symm h)
  induction cells with
  | nil => rfl
  | cons c cs ih =>
    rw [List.map_cons]
    by_cases hc : c.1 = k
    · have hhead : (if (c.1 == k) = true then ((k, v) : String × Option BusEvent) else c)
          = (k, v) := by simp [hc]
      rw [hhead]
      have hck2 : (c.1 == k2) = false := by simp [hc, Ne.symm h]
      have hkv : ((((k, v) : String × Option BusEvent)).1 == k2) = false := by simpa using h2
      simp only [List.find?_cons, hkv, hck2]
      exact ih
    · have hhead : (if (c.1 == k) = true then ((k, v) : String × Option BusEvent) else c)
          = c := by simp [hc]
      rw [hhead]
      by_cases hc2 : c.1 = k2
      · have hb : (c.1 == k2) = true := by simp [hc2]
        simp only [List.find?_cons, hb]
      · have hb : (c.1 == k2) = false := by simp [hc2]
        simp only [List.find?_cons, hb]
        exact ih

lemma lookupCell_setCell_ne (cells : Cells) (k k2 : String) (v : Option BusEvent)
    (h : k2 ≠ k) : lookupCell (setCell cells k v) k2 = lookupCell cells k2 := by
  have h2 : ((k : String) == k2) = false := beq_eq_false_iff_ne.2 (Ne.symm h)
  unfold lookupCell setCell
  by_cases hany : cells.any (fun c => c.1 == k)
  · rw [if_pos hany, find_setCell_map cells k k2 v h]
  · rw [if_neg hany, List.find?_append]
    have hone : (([(k, v)] : Cells).find? (fun c => c.1 == k2)) = none := by
      simp [h2]
    rw [hone, Option.or_none]

lemma runCbWith_simple (el : BusState → String → Val → BusState) (st : BusState)
    (wid : Nat) (cb : CbSpec) (hcb : CbSimple cb) :
    runCbWith el st wid cb true = { st with log := st.log ++ simpleTrace cb wid } := by
  cases cb with
  | pure => simp [runCbWith, simpleTrace]
  | emitting es => exact absurd hcb (by simp [CbSimple])
  | syncThrow => simp [runCbWith, simpleTrace, pushLog]
  | asyncReject => simp [runCbWith, simpleTrace, pushLog]

lemma emitF_allDestroyed (fuel : Nat) (st : BusState) (k : String) (v : Val)
    (h : ∀ w ∈ st.watchers, w.destroyed = true) :
    (emitF fuel st k v).log = st.log ∧ (emitF fuel st k v).watchers = st.watchers ∧
    (emitF fuel st k v).registry = st.registry ∧ (emitF fuel st k v).subs = st.subs ∧
    (emitF fuel st k v).panicked = st.panicked ∧ (emitF fuel st k v).nextId = st.nextId := by
  cases fuel with
  | zero => exact ⟨rfl, rfl, rfl, rfl, rfl, rfl⟩
  | succ f =>
    unfold emitF
    by_cases hp : st.panicked
    · simp [hp]
    · have hfil :
        (st.watchers.filter (fun w => !w.destroyed && dependsOn k w.kind)) = [] := by
        refine List.filter_eq_nil_iff.2 (fun w hw => ?_)
        simp [h w hw]
      simp [hp, hfil]

/-- Variant with positive fuel and no panic: the cell is written and the
clock ticks, nothing else happens. -/
lemma emitF_allDestroyed_succ (fuel : Nat) (st : BusState) (k : String) (v : Val)
    (h : ∀ w ∈ st.watchers, w.destroyed = true) (hp : st.panicked = false) :
    emitF (fuel + 1) st k v =
      { st with cells := setCell st.cells k (some { key := k, payload := v, timestamp := st.now })
                now := st.now + 1 } := by
  unfold emitF
  have hfil :
      (st.watchers.filter (fun w => !w.destroyed && dependsOn k w.kind)) = [] := by
    refine List.filter_eq_nil_iff.2 (fun w hw => ?_)
    simp [h w hw]
  simp [hp, hfil]

/-- Re-emissions performed by a callback after every watcher has been
destroyed only write cells: the trace, the graph, the registry and the
subscription closures stay as they are. -/
lemma emitMany_allDestroyed (fuel : Nat) (es : List (String × Val)) (st : BusState)
    (h : ∀ w ∈ st.watchers, w.destroyed = true) :
    let r := es.foldl (fun acc p => emitF fuel acc p.1 p.2) st
    r.log = st.log ∧ r.watchers = st.watchers ∧ r.registry = st.registry ∧
    r.subs = st.subs ∧ r.panicked = st.panicked ∧ r.nextId = st.nextId := by
  induction es generalizing st with
  | nil => exact ⟨rfl, rfl, rfl, rfl, rfl, rfl⟩
  | cons e es ih =>
    have h1 := emitF_allDestroyed fuel st e.1 e.2 h
    have h2 : ∀ w ∈ (emitF fuel st e.1 e.2).watchers, w.destroyed = true := by
      intro w hw
      exact h w (h1.2.1 ▸ hw)
    have h3 := ih (emitF fuel st e.1 e.2) h2
    simp only [List.foldl_cons]
    refine ⟨?_, ?_, ?_, ?_, ?_, ?_⟩
    · exact h3.1.trans h1.1
    · exact h3.2.1.trans h1.2.1
    · exact h3.2.2.1.trans h1.2.2.1
    · exact h3.2.2.2.1.trans h1.2.2.2.1
    · exact h3.2.2.2.2.1.trans h1.2.2.2.2.1
    · exact h3.2.2.2.2.2.trans h1.2.2.2.2.2

/-- One emission on a bus whose only watcher is a live V2 main effect on
the emitted key: the cell is written, the clock ticks and the callback
is dispatched exactly once with the transformed payload. -/
lemma emit_step_one (fuel : Nat) (st : BusState) (k : String) (v : Val)
    (tf : Option (Val → Val)) (cb : CbSpec) (i h1 : Nat)
    (hw : st.watchers = [{ id := i, kind := WKind.mainV2 h1 k tf cb false, destroyed := false }])
    (hp : st.panicked = false) (hcb : CbSimple cb) :
    emitF (fuel + 1) st k v =
      { st with
        cells := setCell st.cells k (some { key := k, payload := v, timestamp := st.now })
        now := st.now + 1
        log := st.log
          ++ LogEntry.invokedEvt i { key := k, payload := applyTf tf v, timestamp := st.now }
          :: simpleTrace cb i } := by
  cases cb with
  | emitting es => exact absurd hcb (by simp [CbSimple])
  | pure =>
    simp [emitF, hp, hw, dependsOn, runOneWith, runCbWith, pushLog,
      lookupCell_setCell_self, simpleTrace]
  | syncThrow =>
    simp [emitF, hp, hw, dependsOn, runOneWith, runCbWith, pushLog,
      lookupCell_setCell_self, simpleTrace, List.append_assoc]
  | asyncReject =>
    simp [emitF, hp, hw, dependsOn, runOneWith, runCbWith, pushLog,
      lookupCell_setCell_self, simpleTrace, List.append_assoc]

/-- One emission on a bus with two live V2 main effects on the emitted
key, the first with a simple callback, the second with a callback that
does nothing: both are dispatched, in creation order, and a failure of
the first is reported without reaching the second or the emitter. -/
lemma emit_step_two (fuel : Nat) (st : BusState) (k : String) (v : Val)
    (tf1 tf2 : Option (Val → Val)) (cb1 : CbSpec) (i j h1 h2n : Nat)
    (hw : st.watchers =
      [{ id := i, kind := WKind.mainV2 h1 k tf1 cb1 false, destroyed := false },
       { id := j, kind := WKind.mainV2 h2n k tf2 CbSpec.pure false, destroyed := false }])
    (hp : st.panicked = false) (hij : i ≠ j) (hcb : CbSimple cb1) :
    emitF (fuel + 1) st k v =
      { st with
        cells := setCell st.cells k (some { key := k, payload := v, timestamp := st.now })
        now := st.now + 1
        log := st.log
          ++ (LogEntry.invokedEvt i { key := k, payload := applyTf tf1 v, timestamp := st.now }
              :: simpleTrace cb1 i)
          ++ [LogEntry.invokedEvt j { key := k, payload := applyTf tf2 v, timestamp := st.now }] } := by
  have hji : (i == j) = false := beq_eq_false_iff_ne.2 hij
  cases cb1 with
  | emitting es => exact absurd hcb (by simp [CbSimple])
  | pure =>
    simp [emitF, hp, hw, dependsOn, runOneWith, runCbWith, pushLog,
      lookupCell_setCell_self, simpleTrace, hji, List.append_assoc]
  | syncThrow =>
    simp [emitF, hp, hw, dependsOn, runOneWith, runCbWith, pushLog,
      lookupCell_setCell_self, simpleTrace, hji, List.append_assoc]
  | asyncReject =>
    simp [emitF, hp, hw, dependsOn, runOneWith, runCbWith, pushLog,
      lookupCell_setCell_self, simpleTrace, hji, List.append_assoc]

/-- Emitting a payload list on a bus whose only watcher is a live V2
main effect with a do-nothing callback: the trace grows by exactly one
dispatch per emission in order, and graph, registry, closures, id
counter and panic flag are untouched. -/
lemma emitSeq_one (fuel : Nat) (k : String) (tf : Option (Val → Val)) (i h1 : Nat)
    (ps : List Val) : ∀ st : BusState,
    st.watchers = [{ id := i, kind := WKind.mainV2 h1 k tf CbSpec.pure false, destroyed := false }] →
    st.panicked = false →
    (emitSeq (fuel + 1) st k ps).log = st.log ++ expectedEvts i k tf st.now ps ∧
    (emitSeq (fuel + 1) st k ps).watchers = st.watchers ∧
    (emitSeq (fuel + 1) st k ps).panicked = false ∧
    (emitSeq (fuel + 1) st k ps).now = st.now + ps.length ∧
    (emitSeq (fuel + 1) st k ps).subs = st.subs ∧
    (emitSeq (fuel + 1) st k ps).nextId = st.nextId ∧
    (emitSeq (fuel + 1) st k ps).registry = st.registry := by
  induction ps with
  | nil =>
    intro st hw hp
    exact ⟨by simp [emitSeq, expectedEvts], rfl, hp, by simp [emitSeq], rfl, rfl, rfl⟩
  | cons v ps ih =>
    intro st hw hp
    have hstep := emit_step_one fuel st k v tf CbSpec.pure i h1 hw hp (by simp [CbSimple])
    have hseq : emitSeq (fuel + 1) st k (v :: ps)
        = emitSeq (fuel + 1) (emitF (fuel + 1) st k v) k ps := by
      simp [emitSeq]
    have hw2 : (emitF (fuel + 1) st k v).watchers = st.watchers := by rw [hstep]
    have hp2 : (emitF (fuel + 1) st k v).panicked = false := by rw [hstep]; exact hp
    have h3 := ih (emitF (fuel + 1) st k v) (hw2.trans hw) hp2
    rw [hseq]
    refine ⟨?_, ?_, h3.2.2.1, ?_, ?_, ?_, ?_⟩
    · rw [h3.1, hstep]
      simp [expectedEvts, simpleTrace]
    · rw [h3.2.1, hw2]
    · rw [h3.2.2.2.1, hstep]
      simp [Nat.add_assoc, Nat.add_comm 1 ps.length]
    · rw [h3.2.2.2.2.1, hstep]
    · rw [h3.2.2.2.2.2.1, hstep]
    · rw [h3.2.2.2.2.2.2, hstep]

/-- Emitting a payload list on a bus with two live V2 main effects with
do-nothing callbacks on the key: each emission dispatches to both, in
creation order. -/
lemma emitSeq_two (fuel : Nat) (k : String) (tf1 tf2 : Option (Val → Val)) (i j h1 h2n : Nat)
    (hij : i ≠ j) (ps : List Val) : ∀ st : BusState,
    st.watchers =
      [{ id := i, kind := WKind.mainV2 h1 k tf1 CbSpec.pure false, destroyed := false },
       { id := j, kind := WKind.mainV2 h2n k tf2 CbSpec.pure false, destroyed := false }] →
    st.panicked = false →
    (emitSeq (fuel + 1) st k ps).log = st.log ++ expectedEvts2 i j k tf1 tf2 st.now ps := by
  induction ps with
  | nil =>
    intro st hw hp
    simp [emitSeq, expectedEvts2]
  | cons v ps ih =>
    intro st hw hp
    have hstep := emit_step_two fuel st k v tf1 tf2 CbSpec.pure i j h1 h2n hw hp hij
      (by simp [CbSimple])
    have hseq : emitSeq (fuel + 1) st k (v :: ps)
        = emitSeq (fuel + 1) (emitF (fuel + 1) st k v) k ps := by
      simp [emitSeq]
    have hw2 : (emitF (fuel + 1) st k v).watchers = st.watchers := by rw [hstep]
    have hp2 : (emitF (fuel + 1) st k v).panicked = false := by rw [hstep]; exact hp
    have h3 := ih (emitF (fuel + 1) st k v) (hw2.trans hw) hp2
    rw [hseq, h3, hstep]
    simp [expectedEvts2, simpleTrace]

/-- Counting invocations distributes over trace concatenation. -/
lemma countInvocations_append (l1 l2 : List LogEntry) (wid : Nat) :
    countInvocations (l1 ++ l2) wid = countInvocations l1 wid + countInvocations l2 wid := by
  simp [countInvocations, List.filter_append]

/-- The expected single-subscriber trace holds one invocation of that
subscriber per emission. -/
lemma count_expectedEvts_self (i : Nat) (k : String) (tf : Option (Val → Val))
    (ps : List Val) : ∀ now : Nat,
    countInvocations (expectedEvts i k tf now ps) i = ps.length := by
  induction ps with
  | nil => intro now; simp [expectedEvts, countInvocations]
  | cons v ps ih =>
    intro now
    simp [expectedEvts, countInvocations, List.filter_cons] at ih ⊢
    exact ih (now + 1)

/-- The expected single-subscriber trace holds no invocation of any
other watcher. -/
lemma count_expectedEvts_ne (i j : Nat) (k : String) (tf : Option (Val → Val))
    (ps : List Val) (hij : j ≠ i) : ∀ now : Nat,
    countInvocations (expectedEvts i k tf now ps) j = 0 := by
  have hb : (i == j) = false := beq_eq_false_iff_ne.2 (Ne.symm hij)
  induction ps with
  | nil => intro now; simp [expectedEvts, countInvocations]
  | cons v ps ih =>
    intro now
    simp [expectedEvts, countInvocations, List.filter_cons, hb] at ih ⊢
    exact ih (now + 1)

/-- The expected two-subscriber trace holds one invocation of the second
subscriber per emission. -/
lemma count_expectedEvts2_snd (i j : Nat) (k : String) (tf1 tf2 : Option (Val → Val))
    (ps : List Val) (hij : i ≠ j) : ∀ now : Nat,
    countInvocations (expectedEvts2 i j k tf1 tf2 now ps) j = ps.length := by
  have hb : (i == j) = false := beq_eq_false_iff_ne.2 hij
  induction ps with
  | nil => intro now; simp [expectedEvts2, countInvocations]
  | cons v ps ih =>
    intro now
    simp [expectedEvts2, countInvocations, List.filter_cons, hb] at ih ⊢
    exact ih (now + 1)

/-- Draining the microtask queue after a single V2 `on` call without
`unsubscribeOn` and with no other deferred subscription: the main effect
is created, registered under the key and recorded in the closure; no
dispatch happens and the store, clock and trace are untouched. -/
lemma flush_onV2_none (st : BusState) (k : String) (tf : Option (Val → Val)) (cb : CbSpec)
    (isOnce : Bool) (hs : st.subs = []) :
    flush ((onV2 st k tf cb isOnce none).1) =
      { st with
        subs := [{ hid := st.nextId, key := k, tf := tf, cb := cb, isOnce := isOnce
                   unsubOn := none, phase := SubPhase.installed
                   mainId := some (st.nextId + 1), trackerId := none }]
        nextId := st.nextId + 2
        watchers := st.watchers ++ [{ id := st.nextId + 1
                                      kind := WKind.mainV2 st.nextId k tf cb isOnce
                                      destroyed := false }]
        registry := regAdd st.registry k (st.nextId + 1) } := by
  simp [flush, onV2, hs, installSub, findSub, updateSub]

/-- Concrete store for instantiating the combinator theorem: both
sources have emitted. -/
def c6cells : Cells :=
  [("a", some { key := "a", payload := Val.num 1, timestamp := 0 }),
   ("b", some { key := "b", payload := Val.num 2, timestamp := 1 })]

/-- Concrete ordered source list for the combinator theorem. -/
def c6srcs : List Source :=
  [{ key := "a", transform := none }, { key := "b", transform := none }]

/-- The first source of `c6srcs`. -/
def c6s : Source := { key := "a", transform := none }

/-- A transform that maps every payload to `undefined`. -/
def undefTf : Option (Val → Val) := some (fun _ => Val.undef)

/-- Marks a watcher destroyed when its id occurs in the given id list:
the pointwise effect of destroying a batch of registered effects. -/
def markIf (ids : List Nat) (w : Watcher) : Watcher :=
  if ids.contains w.id then { w with destroyed := true } else w

/-- The bus state reached in the tracker scenario after subscribing to
`"login"` with `unsubscribeOn "logout"` (no prior emissions), emitting
`"login"` with payload `v1` and then `"logout"` with payload `v2`: the
tracker has fired and torn down both watchers. -/
def c2state (v1 v2 : Val) : BusState :=
  { cells := [("login", some { key := "login", payload := v1, timestamp := 0 }),
              ("logout", some { key := "logout", payload := v2, timestamp := 1 })]
    registry := []
    watchers := [{ id := 1, kind := WKind.mainV2 0 "login" none CbSpec.pure false
                   destroyed := true },
                 { id := 2, kind := WKind.tracker 0 ["logout"] [none]
                   destroyed := true }]
    subs := [{ hid := 0, key := "login", tf := none, cb := CbSpec.pure, isOnce := false
               unsubOn := some ["logout"], phase := SubPhase.installed
               mainId := some 1, trackerId := some (2, trackerKeyStr ["logout"] "login" 0 2) }]
    nextId := 3, now := 2
    log := [LogEntry.invokedEvt 1 { key := "login", payload := v1, timestamp := 0 }]
    panicked := false }

/-- A concrete bus: key `"k"` has emitted payload `3`, and a live V1
`on("k")` watcher transforms every payload to `undefined`. -/
def c10st : BusState :=
  { cells := [("k", some { key := "k", payload := Val.num 3, timestamp := 0 })]
    registry := [("k", [4])]
    watchers := [{ id := 4, kind := WKind.mainV1 "k" undefTf CbSpec.pure
                   destroyed := false }]
    subs := [], nextId := 5, now := 1, log := [], panicked := false }

lemma zip_map_self {α β γ : Type} (f : α → β) (g : α × β → γ) (l : List α) :
    (l.zip (l.map f)).map g = l.map (fun a => g (a, f a)) := by
  induction l with
  | nil => rfl
  | cons a l ih => simp [ih]

/-- Characterization of the `combineLatestToSignal` computed: absent
exactly while some source cell holds the sentinel, otherwise the
position-matched list of transformed latest payloads. -/
lemma combineLatestToSignal_char (cells : Cells) (srcs : List Source) :
    combineLatestToSignal cells srcs =
      if srcs.any (fun s => (lookupCell cells s.key).isNone) then none
      else some (srcs.map (fun s => sourceValue cells s)) := by
  have hany : ∀ l : List Source,
      ((l.map (fun s => lookupCell cells s.key)).any (fun v => v.isNone))
        = l.any (fun s => (lookupCell cells s.key).isNone) := by
    intro l
    induction l with
    | nil => rfl
    | cons a l ih => simp [ih]
  simp only [combineLatestToSignal]
  rw [hany]
  by_cases h : srcs.any (fun s => (lookupCell cells s.key).isNone)
  · simp [h]
  · rw [if_neg (by simp [h]), if_neg (by simp [h])]
    exact congrArg some (zip_map_self (fun s => lookupCell cells s.key)
      (fun p => match p.2 with
        | none => Val.undef
        | some e => applyTf p.1.transform e.payload) srcs)

lemma lookupCell_resetAll (cells : Cells) (k2 : String) :
    lookupCell (cells.map (fun c => (c.1, none))) k2 = none := by
  induction cells with
  | nil => rfl
  | cons c cs ih =>
    unfold lookupCell at ih ⊢
    cases hc : (c.1 == k2) with
    | true => simp [List.find?_cons, hc]
    | false => simpa [List.find?_cons, hc] using ih

/-- C1. For every key `k`, a subscriber registered via `on(k, ...)`
before any emission is dispatched exactly once per `emit(k, ·)` call and
in emission order, and a subscriber registered after `N` emissions of
`k` receives none of those `N` historical events: installing it adds
nothing to the trace (the stored last value is never replayed) and a
subsequent sequence of emissions dispatches to it exactly once per
emission. Stated over any state whose watcher graph is a single
installed `on(k)` subscription with an empty deferred queue. -/
theorem claim1_live_delivery_only (fuel : Nat) (st : BusState) (k : String)
    (tf tf2 : Option (Val → Val)) (i h1 : Nat) (ps qs : List Val)
    (hw : st.watchers =
      [{ id := i, kind := WKind.mainV2 h1 k tf CbSpec.pure false, destroyed := false }])
    (hp : st.panicked = false) (hs : st.subs = []) (hi : i ≠ st.nextId + 1) :
    (emitSeq (fuel + 1) st k ps).log = st.log ++ expectedEvts i k tf st.now ps
    ∧ (flush ((onV2 (emitSeq (fuel + 1) st k ps) k tf2 CbSpec.pure false none).1)).log
        = st.log ++ expectedEvts i k tf st.now ps
    ∧ (emitSeq (fuel + 1)
        (flush ((onV2 (emitSeq (fuel + 1) st k ps) k tf2 CbSpec.pure false none).1)) k qs).log
        = (st.log ++ expectedEvts i k tf st.now ps)
          ++ expectedEvts2 i (st.nextId + 1) k tf tf2 (st.now + ps.length) qs
    ∧ countInvocations (st.log ++ expectedEvts i k tf st.now ps) (st.nextId + 1)
        = countInvocations st.log (st.nextId + 1)
    ∧ countInvocations
        (expectedEvts2 i (st.nextId + 1) k tf tf2 (st.now + ps.length) qs) (st.nextId + 1)
        = qs.length
    ∧ countInvocations (expectedEvts i k tf st.now ps) i = ps.length := by
  have hA := emitSeq_one fuel k tf i h1 ps st hw hp
  have h1s : (emitSeq (fuel + 1) st k ps).subs = [] := hA.2.2.2.2.1.trans hs
  have hflush := flush_onV2_none (emitSeq (fuel + 1) st k ps) k tf2 CbSpec.pure false h1s
  have hw2 : (flush ((onV2 (emitSeq (fuel + 1) st k ps) k tf2 CbSpec.pure false none).1)).watchers
      = [{ id := i, kind := WKind.mainV2 h1 k tf CbSpec.pure false, destroyed := false },
         { id := st.nextId + 1, kind := WKind.mainV2 st.nextId k tf2 CbSpec.pure false
           destroyed := false }] := by
    rw [hflush]
    simp only [hA.2.1, hA.2.2.2.2.2.1, hw]
    rfl
  have hp2 : (flush ((onV2 (emitSeq (fuel + 1) st k ps) k tf2 CbSpec.pure false none).1)).panicked
      = false := by
    rw [hflush]
    exact hA.2.2.1
  have hlog2 : (flush ((onV2 (emitSeq (fuel + 1) st k ps) k tf2 CbSpec.pure false none).1)).log
      = st.log ++ expectedEvts i k tf st.now ps := by
    rw [hflush]
    exact hA.1
  have hnow2 : (flush ((onV2 (emitSeq (fuel + 1) st k ps) k tf2 CbSpec.pure false none).1)).now
      = st.now + ps.length := by
    rw [hflush]
    exact hA.2.2.2.1
  have hB := emitSeq_two fuel k tf tf2 i (st.nextId + 1) h1 st.nextId hi qs
    (flush ((onV2 (emitSeq (fuel + 1) st k ps) k tf2 CbSpec.pure false none).1)) hw2 hp2
  refine ⟨hA.1, hlog2, ?_, ?_, ?_, ?_⟩
  · rw [hB, hlog2, hnow2]
  · rw [countInvocations_append, count_expectedEvts_ne i (st.nextId + 1) k tf ps (Ne.symm hi) st.now]
    exact Nat.add_zero _
  · exact count_expectedEvts2_snd i (st.nextId + 1) k tf tf2 qs hi (st.now + ps.length)
  · exact count_expectedEvts_self i k tf ps st.now

/-- C1 witness: a concrete bus with one installed subscription on key
`"k"`, two emissions before a late subscriber attaches and one after. -/
theorem claim1_witness :
    (claim1Wst.watchers =
      [{ id := 5, kind := WKind.mainV2 0 "k" none CbSpec.pure false, destroyed := false }])
    ∧ claim1Wst.panicked = false ∧ claim1Wst.subs = [] ∧ 5 ≠ claim1Wst.nextId + 1
    ∧ ((emitSeq 1 claim1Wst "k" [Val.num 1, Val.num 2]).log
        = claim1Wst.log ++ expectedEvts 5 "k" none claim1Wst.now [Val.num 1, Val.num 2]
      ∧ (flush ((onV2 (emitSeq 1 claim1Wst "k" [Val.num 1, Val.num 2]) "k" none
          CbSpec.pure false none).1)).log
        = claim1Wst.log ++ expectedEvts 5 "k" none claim1Wst.now [Val.num 1, Val.num 2]
      ∧ (emitSeq 1 (flush ((onV2 (emitSeq 1 claim1Wst "k" [Val.num 1, Val.num 2]) "k" none
          CbSpec.pure false none).1)) "k" [Val.num 3]).log
        = (claim1Wst.log ++ expectedEvts 5 "k" none claim1Wst.now [Val.num 1, Val.num 2])
          ++ expectedEvts2 5 (claim1Wst.nextId + 1) "k" none none
              (claim1Wst.now + ([Val.num 1, Val.num 2] : List Val).length) [Val.num 3]
      ∧ countInvocations
          (claim1Wst.log ++ expectedEvts 5 "k" none claim1Wst.now [Val.num 1, Val.num 2])
          (claim1Wst.nextId + 1)
        = countInvocations claim1Wst.log (claim1Wst.nextId + 1)
      ∧ countInvocations (expectedEvts2 5 (claim1Wst.nextId + 1) "k" none none
          (claim1Wst.now + ([Val.num 1, Val.num 2] : List Val).length) [Val.num 3])
          (claim1Wst.nextId + 1) = ([Val.num 3] : List Val).length
      ∧ countInvocations (expectedEvts 5 "k" none claim1Wst.now [Val.num 1, Val.num 2]) 5
        = ([Val.num 1, Val.num 2] : List Val).length) :=
  ⟨rfl, rfl, rfl, by decide,
    claim1_live_delivery_only 0 claim1Wst "k" none none 5 0
      [Val.num 1, Val.num 2] [Val.num 3] rfl rfl rfl (by decide)⟩

/-- C4. `resetEvent(key)` rewrites the cell of the key back to the
`NOT_EMITTED` sentinel without adding or removing any subscription:
`latest(key)` is absent afterwards, other cells are untouched and the
registry, the watcher graph and the subscription closures are unchanged;
`resetAllEvents()` does the same for every known key. Both operations
are modelled from the spec because they are absent from the source. -/
theorem claim4_reset_events (st : BusState) (k k2 k3 : String) (h2 : k2 ≠ k) :
    latest (resetEvent st k) k = none
    ∧ (resetEvent st k).registry = st.registry
    ∧ (resetEvent st k).watchers = st.watchers
    ∧ (resetEvent st k).subs = st.subs
    ∧ latest (resetEvent st k) k2 = latest st k2
    ∧ latest (resetAllEvents st) k3 = none
    ∧ (resetAllEvents st).registry = st.registry
    ∧ (resetAllEvents st).watchers = st.watchers
    ∧ (resetAllEvents st).subs = st.subs :=
  ⟨lookupCell_setCell_self st.cells k none, rfl, rfl, rfl,
   lookupCell_setCell_ne st.cells k k2 none h2,
   lookupCell_resetAll st.cells k3, rfl, rfl, rfl⟩

/-- C4 witness: resetting key `"a"` on a concrete bus. -/
theorem claim4_witness :
    ("b" : String) ≠ "a"
    ∧ (latest (resetEvent claim1Wst "a") "a" = none
      ∧ (resetEvent claim1Wst "a").registry = claim1Wst.registry
      ∧ (resetEvent claim1Wst "a").watchers = claim1Wst.watchers
      ∧ (resetEvent claim1Wst "a").subs = claim1Wst.subs
      ∧ latest (resetEvent claim1Wst "a") "b" = latest claim1Wst "b"
      ∧ latest (resetAllEvents claim1Wst) "c" = none
      ∧ (resetAllEvents claim1Wst).registry = claim1Wst.registry
      ∧ (resetAllEvents claim1Wst).watchers = claim1Wst.watchers
      ∧ (resetAllEvents claim1Wst).subs = claim1Wst.subs) :=
  ⟨by decide, claim4_reset_events claim1Wst "a" "b" "c" (by decide)⟩

/-- C6. The `combineLatestToSignal` view is absent exactly while at
least one source cell still holds the `NOT_EMITTED` sentinel; once every
source has emitted, its value is the ordered, position-matched list of
transformed latest payloads; and after a further emission on any source
(a store write of that source cell) it is the recomputed list over the
updated store. -/
theorem claim6_combine_hold_and_wait (cells : Cells) (srcs : List Source) (s : Source)
    (e : BusEvent) (_hs : s ∈ srcs)
    (hall : ∀ t ∈ srcs, t.key ≠ s.key → lookupCell cells t.key ≠ none) :
    (combineLatestToSignal cells srcs = none ↔ ∃ t ∈ srcs, lookupCell cells t.key = none)
    ∧ ((∀ t ∈ srcs, lookupCell cells t.key ≠ none) →
        combineLatestToSignal cells srcs = some (srcs.map (fun t => sourceValue cells t)))
    ∧ combineLatestToSignal (setCell cells s.key (some e)) srcs
        = some (srcs.map (fun t => sourceValue (setCell cells s.key (some e)) t)) := by
  refine ⟨?_, ?_, ?_⟩
  · rw [combineLatestToSignal_char]
    by_cases h : srcs.any (fun t => (lookupCell cells t.key).isNone)
    · rw [if_pos h]
      simp only [List.any_eq_true, Option.isNone_iff_eq_none] at h
      exact ⟨fun _ => h, fun _ => rfl⟩
    · rw [if_neg h]
      simp only [List.any_eq_true, Option.isNone_iff_eq_none] at h
      exact ⟨fun hc => by simp at hc, fun hex => absurd hex h⟩
  · intro hall2
    rw [combineLatestToSignal_char]
    rw [if_neg ?hne]
    case hne =>
      simp only [List.any_eq_true, Option.isNone_iff_eq_none]
      rintro ⟨t, ht, htn⟩
      exact hall2 t ht htn
  · rw [combineLatestToSignal_char]
    rw [if_neg ?hne2]
    case hne2 =>
      simp only [List.any_eq_true, Option.isNone_iff_eq_none]
      rintro ⟨t, ht, htn⟩
      by_cases hts : t.key = s.key
      · rw [hts, lookupCell_setCell_self] at htn
        exact Option.noConfusion htn
      · rw [lookupCell_setCell_ne cells s.key t.key (some e) hts] at htn
        exact hall t ht hts htn

/-- C6 witness: two sources that have both emitted, then a new emission
on the first. -/
theorem claim6_witness :
    c6s ∈ c6srcs
    ∧ (∀ t ∈ c6srcs, t.key ≠ c6s.key → lookupCell c6cells t.key ≠ none)
    ∧ ((combineLatestToSignal c6cells c6srcs = none
          ↔ ∃ t ∈ c6srcs, lookupCell c6cells t.key = none)
      ∧ ((∀ t ∈ c6srcs, lookupCell c6cells t.key ≠ none) →
          combineLatestToSignal c6cells c6srcs
            = some (c6srcs.map (fun t => sourceValue c6cells t)))
      ∧ combineLatestToSignal
          (setCell c6cells c6s.key (some { key := "a", payload := Val.num 9, timestamp := 5 }))
          c6srcs
        = some (c6srcs.map (fun t => sourceValue
            (setCell c6cells c6s.key (some { key := "a", payload := Val.num 9, timestamp := 5 }))
            t))) := by
  have hs : c6s ∈ c6srcs := List.mem_cons_self _ _
  have hall : ∀ t ∈ c6srcs, t.key ≠ c6s.key → lookupCell c6cells t.key ≠ none := by
    intro t ht hne
    simp only [c6srcs, List.mem_cons, List.not_mem_nil, or_false] at ht
    rcases ht with rfl | rfl
    · exact absurd rfl hne
    · simp [c6cells, lookupCell]
  exact ⟨hs, hall, claim6_combine_hold_and_wait c6cells c6srcs c6s
    { key := "a", payload := Val.num 9, timestamp := 5 } hs hall⟩

/-- C10. `onToSignal` conflates a genuinely `undefined` (transformed)
payload with the never-emitted state: when the latest stored event of a
key transforms to `undefined`, the signal value equals `undefined`, the
very value it yields for a key that has never emitted; and the first
variant of `on`, which guards dispatch on the signal value being
distinct from `undefined`, never invokes the subscriber callback for
such an emission. -/
theorem claim10_undef_conflation (st : BusState) (k k2 : String)
    (tf tf2 : Option (Val → Val)) (e : BusEvent) (cb : CbSpec) (i fuel : Nat) (p : Val)
    (hk : lookupCell st.cells k = some e)
    (hu : applyTf tf e.payload = Val.undef)
    (hk2 : lookupCell st.cells k2 = none)
    (hw : st.watchers = [{ id := i, kind := WKind.mainV1 k tf cb, destroyed := false }])
    (hp : st.panicked = false)
    (hpu : applyTf tf p = Val.undef) :
    onToSignalVal st k tf = Val.undef
    ∧ onToSignalVal st k2 tf2 = Val.undef
    ∧ onToSignalVal st k tf = onToSignalVal st k2 tf2
    ∧ (emitF (fuel + 1) st k p).log = st.log := by
  have c1 : onToSignalVal st k tf = Val.undef := by
    simp [onToSignalVal, hk, hu]
  have c2 : onToSignalVal st k2 tf2 = Val.undef := by
    simp [onToSignalVal, hk2]
  refine ⟨c1, c2, c1.trans c2.symm, ?_⟩
  simp [emitF, hp, hw, dependsOn, runOneWith, lookupCell_setCell_self, hpu]

/-- C10 witness: key `"k"` last emitted payload `3`, the transform maps
everything to `undefined`, key `"x"` never emitted, and an emission of
payload `7` is not dispatched to the V1 subscriber. -/
theorem claim10_witness :
    lookupCell c10st.cells "k" = some { key := "k", payload := Val.num 3, timestamp := 0 }
    ∧ applyTf undefTf (Val.num 3) = Val.undef
    ∧ lookupCell c10st.cells "x" = none
    ∧ applyTf undefTf (Val.num 7) = Val.undef
    ∧ (onToSignalVal c10st "k" undefTf = Val.undef
      ∧ onToSignalVal c10st "x" none = Val.undef
      ∧ onToSignalVal c10st "k" undefTf = onToSignalVal c10st "x" none
      ∧ (emitF 1 c10st "k" (Val.num 7)).log = c10st.log) :=
  ⟨rfl, rfl, rfl, rfl,
   claim10_undef_conflation c10st "k" "x" undefTf none
     { key := "k", payload := Val.num 3, timestamp := 0 } CbSpec.pure 4 0 (Val.num 7)
     rfl rfl rfl rfl rfl rfl⟩

/-- Destroying a batch of effect ids is the pointwise marking of the
watcher list. -/
lemma foldl_destroyW (ids : List Nat) : ∀ ws : List Watcher,
    ids.foldl destroyW ws = ws.map (markIf ids) := by
  induction ids with
  | nil =>
    intro ws
    simp only [List.foldl_nil]
    have hf : markIf [] = id := funext fun w => by simp [markIf]
    rw [hf, List.map_id]
  | cons i ids ih =>
    intro ws
    rw [List.foldl_cons, ih (destroyW ws i), destroyW, List.map_map]
    have hfun : (markIf ids ∘ fun w => if w.id == i then { w with destroyed := true } else w)
        = markIf (i :: ids) := by
      funext w
      by_cases hw : w.id = i
      · by_cases hc : w.id ∈ ids
        · simp [markIf, Function.comp, hw, hc]
        · simp [markIf, Function.comp, hw, hc]
      · have hb : (w.id == i) = false := beq_eq_false_iff_ne.2 hw
        by_cases hc : w.id ∈ ids
        · simp [markIf, Function.comp, hb, hw, hc]
        · simp [markIf, Function.comp, hb, hw, hc]
    rw [hfun]

/-- After `clearSubscriptions`, every watcher that the registry knew
about is destroyed; under the live-implies-registered hypothesis every
watcher is therefore destroyed. -/
lemma clearSubscriptions_destroys (st : BusState)
    (hreg : ∀ w ∈ st.watchers, w.destroyed = false → w.id ∈ regAllIds st.registry) :
    ∀ w ∈ (clearSubscriptions st).watchers, w.destroyed = true := by
  intro w hw
  simp only [clearSubscriptions, foldl_destroyW] at hw
  obtain ⟨w0, hw0, rfl⟩ := List.mem_map.1 hw
  cases hb : w0.destroyed with
  | true =>
    by_cases hc : w0.id ∈ regAllIds st.registry
    · simp [markIf, hc, hb]
    · simp [markIf, hc, hb]
  | false =>
    have hmem : w0.id ∈ regAllIds st.registry := hreg w0 hw0 hb
    simp [markIf, hmem]

/-- C7. `clearSubscriptions()` / `unsubscribeAll()` destroys every live
watcher and empties the registry while leaving every store cell (and its
last value) unchanged; consequently an `emit(k, p)` performed right
afterwards invokes no callback, yet `latest(k)` then returns a
`BusEvent` with payload `p`. Hypothesis: every live watcher is
registered, which the engine maintains by construction. -/
theorem claim7_clear_keeps_cells (fuel : Nat) (st : BusState) (k : String) (v : Val)
    (hreg : ∀ w ∈ st.watchers, w.destroyed = false → w.id ∈ regAllIds st.registry)
    (hp : st.panicked = false) :
    (clearSubscriptions st).cells = st.cells
    ∧ (clearSubscriptions st).registry = []
    ∧ (∀ w ∈ (clearSubscriptions st).watchers, w.destroyed = true)
    ∧ (emitF (fuel + 1) (clearSubscriptions st) k v).log = st.log
    ∧ latest (emitF (fuel + 1) (clearSubscriptions st) k v) k
        = some { key := k, payload := v, timestamp := st.now } := by
  have hall := clearSubscriptions_destroys st hreg
  refine ⟨rfl, rfl, hall, ?_, ?_⟩
  · exact (emitF_allDestroyed (fuel + 1) (clearSubscriptions st) k v hall).1
  · rw [emitF_allDestroyed_succ fuel (clearSubscriptions st) k v hall hp]
    exact lookupCell_setCell_self st.cells k _

/-- C7 witness: clearing a concrete bus with one live registered
subscription, then emitting payload `9` on key `"k"`. -/
theorem claim7_witness :
    (∀ w ∈ claim1Wst.watchers, w.destroyed = false → w.id ∈ regAllIds claim1Wst.registry)
    ∧ claim1Wst.panicked = false
    ∧ ((clearSubscriptions claim1Wst).cells = claim1Wst.cells
      ∧ (clearSubscriptions claim1Wst).registry = []
      ∧ (∀ w ∈ (clearSubscriptions claim1Wst).watchers, w.destroyed = true)
      ∧ (emitF 1 (clearSubscriptions claim1Wst) "k" (Val.num 9)).log = claim1Wst.log
      ∧ latest (emitF 1 (clearSubscriptions claim1Wst) "k" (Val.num 9)) "k"
          = some { key := "k", payload := Val.num 9, timestamp := claim1Wst.now }) := by
  have hreg : ∀ w ∈ claim1Wst.watchers, w.destroyed = false
      → w.id ∈ regAllIds claim1Wst.registry := by
    intro w hw _
    simp only [claim1Wst, List.mem_cons, List.not_mem_nil, or_false] at hw
    subst hw
    simp [regAllIds, claim1Wst]
  exact ⟨hreg, rfl, claim7_clear_keeps_cells 0 claim1Wst "k" (Val.num 9) hreg rfl⟩

/-- C8. If the unsubscribe handle returned by V2 `on` is invoked before
the deferred installation has run, the cancellation is remembered
(`Pending` to `CancelledBeforeInstall`); after the installation step the
registry holds nothing, the only created watcher is already destroyed,
no tracker watcher exists, and a later emission of the key invokes no
callback. -/
theorem claim8_cancel_before_install (fuel : Nat) (k : String) (tf : Option (Val → Val))
    (cb : CbSpec) (unsubOn : Option (List String)) (v : Val) :
    ((onV2 st0 k tf cb false unsubOn).1.subs.map SubRec.phase = [SubPhase.pendingInstall])
    ∧ ((unsubHandleCore (onV2 st0 k tf cb false unsubOn).1
        (onV2 st0 k tf cb false unsubOn).2).subs.map SubRec.phase
          = [SubPhase.cancelledBeforeInstall])
    ∧ (flush (unsubHandleCore (onV2 st0 k tf cb false unsubOn).1
        (onV2 st0 k tf cb false unsubOn).2)).registry = []
    ∧ ((flush (unsubHandleCore (onV2 st0 k tf cb false unsubOn).1
        (onV2 st0 k tf cb false unsubOn).2)).watchers.map Watcher.destroyed = [true])
    ∧ (emitF (fuel + 1) (flush (unsubHandleCore (onV2 st0 k tf cb false unsubOn).1
        (onV2 st0 k tf cb false unsubOn).2)) k v).log = [] := by
  have hB : unsubHandleCore (onV2 st0 k tf cb false unsubOn).1
      (onV2 st0 k tf cb false unsubOn).2
      = { cells := [], registry := [], watchers := []
          subs := [{ hid := 0, key := k, tf := tf, cb := cb, isOnce := false
                     unsubOn := unsubOn, phase := SubPhase.cancelledBeforeInstall
                     mainId := none, trackerId := none }]
          nextId := 1, now := 0, log := [], panicked := false } := by
    simp [onV2, st0, unsubHandleCore, findSub, updateSub]
  have hC : flush (unsubHandleCore (onV2 st0 k tf cb false unsubOn).1
      (onV2 st0 k tf cb false unsubOn).2)
      = { cells := [], registry := []
          watchers := [{ id := 1, kind := WKind.mainV2 0 k tf cb false, destroyed := true }]
          subs := [{ hid := 0, key := k, tf := tf, cb := cb, isOnce := false
                     unsubOn := unsubOn, phase := SubPhase.installed
                     mainId := none, trackerId := none }]
          nextId := 2, now := 0, log := [], panicked := false } := by
    rw [hB]
    simp [flush, installSub, findSub, updateSub, removeEffect, destroyW, regAdd,
      regRemoveOne, lookupReg]
  have hall : ∀ w ∈ (flush (unsubHandleCore (onV2 st0 k tf cb false unsubOn).1
      (onV2 st0 k tf cb false unsubOn).2)).watchers, w.destroyed = true := by
    rw [hC]
    intro w hw
    simp only [List.mem_cons, List.not_mem_nil, or_false] at hw
    subst hw
    rfl
  refine ⟨?_, ?_, ?_, ?_, ?_⟩
  · simp [onV2, st0]
  · rw [hB]
    rfl
  · rw [hC]
  · rw [hC]
    rfl
  · have h5 := (emitF_allDestroyed (fuel + 1) _ k v hall).1
    rw [h5, hC]

/-- C5. A `once(k, ...)` subscription unsubscribes itself before the
user callback runs on its first dispatch: after the first emission the
callback has been invoked exactly once, the main watcher is destroyed
and deregistered, and this stays true after a further emission of `k` —
even when the user callback synchronously re-emits events (including
`k` itself), modelled by the `emitting` callback behaviour. -/
theorem claim5_once_exactly_once (fuel : Nat) (k : String) (tf : Option (Val → Val))
    (es : List (String × Val)) (v1 v2 : Val) :
    countInvocations
      (emitF (fuel + 1) (flush ((onceV2 st0 k tf (CbSpec.emitting es)).1)) k v1).log 1 = 1
    ∧ watcherDestroyed
        (emitF (fuel + 1) (flush ((onceV2 st0 k tf (CbSpec.emitting es)).1)) k v1) 1 = true
    ∧ (emitF (fuel + 1) (flush ((onceV2 st0 k tf (CbSpec.emitting es)).1)) k v1).registry = []
    ∧ countInvocations
        (emitF (fuel + 1)
          (emitF (fuel + 1) (flush ((onceV2 st0 k tf (CbSpec.emitting es)).1)) k v1)
          k v2).log 1 = 1 := by
  have hst2 : flush ((onceV2 st0 k tf (CbSpec.emitting es)).1)
      = { cells := [], registry := [(k, [1])]
          watchers := [{ id := 1, kind := WKind.mainV2 0 k tf (CbSpec.emitting es) true
                         destroyed := false }]
          subs := [{ hid := 0, key := k, tf := tf, cb := CbSpec.emitting es, isOnce := true
                     unsubOn := none, phase := SubPhase.installed
                     mainId := some 1, trackerId := none }]
          nextId := 2, now := 0, log := [], panicked := false } := by
    rw [show (onceV2 st0 k tf (CbSpec.emitting es))
          = onV2 st0 k tf (CbSpec.emitting es) true none from rfl]
    rw [flush_onV2_none st0 k tf (CbSpec.emitting es) true rfl]
    simp [st0, regAdd]
  have hrun : emitF (fuel + 1) (flush ((onceV2 st0 k tf (CbSpec.emitting es)).1)) k v1
      = es.foldl (fun acc p => emitF fuel acc p.1 p.2)
          { cells := [(k, some { key := k, payload := v1, timestamp := 0 })]
            registry := []
            watchers := [{ id := 1, kind := WKind.mainV2 0 k tf (CbSpec.emitting es) true
                           destroyed := true }]
            subs := [{ hid := 0, key := k, tf := tf, cb := CbSpec.emitting es, isOnce := true
                       unsubOn := none, phase := SubPhase.installed
                       mainId := some 1, trackerId := none }]
            nextId := 2, now := 1
            log := [LogEntry.invokedEvt 1
              { key := k, payload := applyTf tf v1, timestamp := 0 }]
            panicked := false } := by
    rw [hst2]
    simp [emitF, dependsOn, runOneWith, findSub, unsubHandleCore, removeEffect, destroyW,
      regRemoveOne, lookupReg, pushLog, runCbWith, setCell, lookupCell, List.find?_cons]
  have hm := emitMany_allDestroyed fuel es
    { cells := [(k, some { key := k, payload := v1, timestamp := 0 })]
      registry := []
      watchers := [{ id := 1, kind := WKind.mainV2 0 k tf (CbSpec.emitting es) true
                     destroyed := true }]
      subs := [{ hid := 0, key := k, tf := tf, cb := CbSpec.emitting es, isOnce := true
                 unsubOn := none, phase := SubPhase.installed
                 mainId := some 1, trackerId := none }]
      nextId := 2, now := 1
      log := [LogEntry.invokedEvt 1 { key := k, payload := applyTf tf v1, timestamp := 0 }]
      panicked := false }
    (by
      intro w hw
      simp only [List.mem_cons, List.not_mem_nil, or_false] at hw
      subst hw
      rfl)
  have hlog : (emitF (fuel + 1) (flush ((onceV2 st0 k tf (CbSpec.emitting es)).1)) k v1).log
      = [LogEntry.invokedEvt 1 { key := k, payload := applyTf tf v1, timestamp := 0 }] := by
    rw [hrun]
    exact hm.1
  have hwatch : (emitF (fuel + 1) (flush ((onceV2 st0 k tf (CbSpec.emitting es)).1)) k v1).watchers
      = [{ id := 1, kind := WKind.mainV2 0 k tf (CbSpec.emitting es) true
           destroyed := true }] := by
    rw [hrun]
    exact hm.2.1
  have hall2 : ∀ w ∈ (emitF (fuel + 1)
      (flush ((onceV2 st0 k tf (CbSpec.emitting es)).1)) k v1).watchers, w.destroyed = true := by
    rw [hwatch]
    intro w hw
    simp only [List.mem_cons, List.not_mem_nil, or_false] at hw
    subst hw
    rfl
  refine ⟨?_, ?_, ?_, ?_⟩
  · rw [hlog]
    simp [countInvocations]
  · rw [watcherDestroyed, hwatch]
    rfl
  · rw [hrun]
    exact hm.2.2.1
  · rw [(emitF_allDestroyed (fuel + 1) _ k v2 hall2).1, hlog]
    simp [countInvocations]

/-- C2 counterexample. The claim quantifies over every prior value of
the tracked keys, but the tracker only compares the attach-time snapshot
against the `NOT_EMITTED` sentinel: when `"logout"` has already emitted
before the subscription attaches, a later `"logout"` emission does not
tear the subscription down, and the login/logout/login scenario
dispatches the callback twice instead of exactly once. -/
theorem claim2_counterexample :
    countInvocations (emitF 2 (emitF 2 (emitF 2
      (flush ((onV2 (emitF 2 st0 "logout" (Val.num 0))
        "login" none CbSpec.pure false (some ["logout"])).1))
      "login" (Val.num 1)) "logout" (Val.num 2)) "login" (Val.num 3)).log 1 = 2 := by
  decide

/-- C2 amended. The tracker snapshots each tracked key at attach time
and tears the subscription down on the first emission of a tracked key
only when that snapshot was the `NOT_EMITTED` sentinel; tracked keys
that had already emitted before attach never trigger teardown. In
particular, when `"logout"` has never emitted before the subscription
attaches, emitting `"login"`, `"logout"`, `"login"` dispatches the
callback exactly once, and the teardown removes both the main watcher
and the tracker watcher from the graph and the registry. -/
theorem claim2_amended_tracker (fuel : Nat) (v1 v2 v3 : Val) :
    countInvocations (emitF (fuel + 1) (emitF (fuel + 1) (emitF (fuel + 1)
      (flush ((onV2 st0 "login" none CbSpec.pure false (some ["logout"])).1))
      "login" v1) "logout" v2) "login" v3).log 1 = 1
    ∧ watcherDestroyed (emitF (fuel + 1) (emitF (fuel + 1) (emitF (fuel + 1)
        (flush ((onV2 st0 "login" none CbSpec.pure false (some ["logout"])).1))
        "login" v1) "logout" v2) "login" v3) 1 = true
    ∧ watcherDestroyed (emitF (fuel + 1) (emitF (fuel + 1) (emitF (fuel + 1)
        (flush ((onV2 st0 "login" none CbSpec.pure false (some ["logout"])).1))
        "login" v1) "logout" v2) "login" v3) 2 = true
    ∧ (emitF (fuel + 1) (emitF (fuel + 1) (emitF (fuel + 1)
        (flush ((onV2 st0 "login" none CbSpec.pure false (some ["logout"])).1))
        "login" v1) "logout" v2) "login" v3).registry = [] := by
  have hc1 : ((["logout"] : List String).contains "login") = false := by decide
  have hc2 : ((["logout"] : List String).contains "logout") = true := by decide
  have hll : (("login" : String) == "logout") = false := by decide
  have hll2 : (("logout" : String) == "login") = false := by decide
  have htk : ((trackerKeyStr ["logout"] "login" 0 2 : String) == "login") = false := by decide
  have hS : flush ((onV2 st0 "login" none CbSpec.pure false (some ["logout"])).1)
      = { cells := []
          registry := [("login", [1]), (trackerKeyStr ["logout"] "login" 0 2, [2])]
          watchers := [{ id := 1, kind := WKind.mainV2 0 "login" none CbSpec.pure false
                         destroyed := false },
                       { id := 2, kind := WKind.tracker 0 ["logout"] [none]
                         destroyed := false }]
          subs := [{ hid := 0, key := "login", tf := none, cb := CbSpec.pure, isOnce := false
                     unsubOn := some ["logout"], phase := SubPhase.installed
                     mainId := some 1
                     trackerId := some (2, trackerKeyStr ["logout"] "login" 0 2) }]
          nextId := 3, now := 0, log := [], panicked := false } := by
    have htk2 : ¬("login" = trackerKeyStr ["logout"] "login" 0 2) := by decide
    simp [flush, onV2, st0, installSub, findSub, updateSub, regAdd, lookupCell, htk2]
  have h3 : emitF (fuel + 1)
      { cells := ([] : Cells)
        registry := [("login", [1]), (trackerKeyStr ["logout"] "login" 0 2, [2])]
        watchers := [{ id := 1, kind := WKind.mainV2 0 "login" none CbSpec.pure false
                       destroyed := false },
                     { id := 2, kind := WKind.tracker 0 ["logout"] [none]
                       destroyed := false }]
        subs := [{ hid := 0, key := "login", tf := none, cb := CbSpec.pure, isOnce := false
                   unsubOn := some ["logout"], phase := SubPhase.installed
                   mainId := some 1
                   trackerId := some (2, trackerKeyStr ["logout"] "login" 0 2) }]
        nextId := 3, now := 0, log := [], panicked := false } "login" v1
      = { cells := [("login", some { key := "login", payload := v1, timestamp := 0 })]
          registry := [("login", [1]), (trackerKeyStr ["logout"] "login" 0 2, [2])]
          watchers := [{ id := 1, kind := WKind.mainV2 0 "login" none CbSpec.pure false
                         destroyed := false },
                       { id := 2, kind := WKind.tracker 0 ["logout"] [none]
                         destroyed := false }]
          subs := [{ hid := 0, key := "login", tf := none, cb := CbSpec.pure, isOnce := false
                     unsubOn := some ["logout"], phase := SubPhase.installed
                     mainId := some 1
                     trackerId := some (2, trackerKeyStr ["logout"] "login" 0 2) }]
          nextId := 3, now := 1
          log := [LogEntry.invokedEvt 1 { key := "login", payload := v1, timestamp := 0 }]
          panicked := false } := by
    simp [emitF, dependsOn, runOneWith, runCbWith, pushLog, setCell, lookupCell,
      List.find?_cons, hc1, trackerTriggered, applyTf]
  have h4 : emitF (fuel + 1)
      { cells := [("login", some { key := "login", payload := v1, timestamp := 0 })]
        registry := [("login", [1]), (trackerKeyStr ["logout"] "login" 0 2, [2])]
        watchers := [{ id := 1, kind := WKind.mainV2 0 "login" none CbSpec.pure false
                       destroyed := false },
                     { id := 2, kind := WKind.tracker 0 ["logout"] [none]
                       destroyed := false }]
        subs := [{ hid := 0, key := "login", tf := none, cb := CbSpec.pure, isOnce := false
                   unsubOn := some ["logout"], phase := SubPhase.installed
                   mainId := some 1
                   trackerId := some (2, trackerKeyStr ["logout"] "login" 0 2) }]
        nextId := 3, now := 1
        log := [LogEntry.invokedEvt 1 { key := "login", payload := v1, timestamp := 0 }]
        panicked := false } "logout" v2
      = c2state v1 v2 := by
    have htk3 : ((trackerKeyStr ["logout"] "login" 0 2 : String)
        == trackerKeyStr ["logout"] "login" 0 2) = true := by decide
    simp [emitF, dependsOn, runOneWith, runCbWith, pushLog, setCell, lookupCell,
      List.find?_cons, hc2, hll, hll2, htk, trackerTriggered, removeBothCore, findSub,
      removeEffect, destroyW, regRemoveOne, lookupReg, regDeleteKey, htk3, c2state]
  have hall : ∀ w ∈ (c2state v1 v2).watchers, w.destroyed = true := by
    intro w hw
    simp only [c2state, List.mem_cons, List.not_mem_nil, or_false] at hw
    rcases hw with rfl | rfl <;> rfl
  have hD := emitF_allDestroyed (fuel + 1) (c2state v1 v2) "login" v3 hall
  refine ⟨?_, ?_, ?_, ?_⟩ <;> rw [hS, h3, h4]
  · rw [hD.1]
    simp [c2state, countInvocations]
  · simp only [watcherDestroyed]
    rw [hD.2.1]
    simp [c2state]
  · simp only [watcherDestroyed]
    rw [hD.2.1]
    simp [c2state]
  · rw [hD.2.2.1]
    simp [c2state]

/-- C3 counterexample. A synchronous throw in a `combineLatest` callback
is not caught at its dispatch site (only promise results get a rejection
handler attached), so it escapes to the emitter, and a second,
independent subscriber on the same key that was created later does not
receive the event: with a `combineLatest(["a"])` subscriber whose
callback throws synchronously followed by an `on("a")` subscriber,
emitting `"a"` panics the emitter and the second subscriber is never
invoked. -/
theorem claim3_counterexample :
    (emitF 2 (onV1 (combineLatestV2 st0 [{ key := "a", transform := none }]
      CbSpec.syncThrow).1 "a" none CbSpec.pure).1 "a" (Val.num 7)).panicked = true
    ∧ countInvocations (emitF 2 (onV1 (combineLatestV2 st0 [{ key := "a", transform := none }]
      CbSpec.syncThrow).1 "a" none CbSpec.pure).1 "a" (Val.num 7)).log 1 = 0 := by
  decide

/-- C3 amended. At the V2 `on`/`once` dispatch boundary both a
synchronous throw and a rejected asynchronous result are caught and
reported to the diagnostic sink and never reach the emitter, so when two
independent `on` subscribers exist on the same key and the first one
fails, the second still receives the same event; for `combineLatest`
only rejected asynchronous results are caught and reported — a
synchronous throw there escapes to the emitter (see the
counterexample). -/
theorem claim3_amended_failure_isolation (fuel : Nat) (st st2 : BusState) (k : String)
    (v : Val) (tf1 tf2 tf3 : Option (Val → Val)) (cb1 : CbSpec) (i j h1 h2n i2 : Nat)
    (hw : st.watchers =
      [{ id := i, kind := WKind.mainV2 h1 k tf1 cb1 false, destroyed := false },
       { id := j, kind := WKind.mainV2 h2n k tf2 CbSpec.pure false, destroyed := false }])
    (hp : st.panicked = false) (hij : i ≠ j)
    (hcb : cb1 = CbSpec.syncThrow ∨ cb1 = CbSpec.asyncReject)
    (hw2 : st2.watchers =
      [{ id := i2, kind := WKind.combineV2 [{ key := k, transform := tf3 }] CbSpec.asyncReject
         destroyed := false }])
    (hp2 : st2.panicked = false) :
    (emitF (fuel + 1) st k v).log
      = st.log ++ [LogEntry.invokedEvt i { key := k, payload := applyTf tf1 v, timestamp := st.now },
                   LogEntry.errorReported i,
                   LogEntry.invokedEvt j { key := k, payload := applyTf tf2 v, timestamp := st.now }]
    ∧ (emitF (fuel + 1) st k v).panicked = false
    ∧ (emitF (fuel + 1) st2 k v).log
      = st2.log ++ [LogEntry.invokedEvts i2
            [{ key := k, payload := applyTf tf3 v, timestamp := st2.now + 1 }],
          LogEntry.errorReported i2]
    ∧ (emitF (fuel + 1) st2 k v).panicked = false := by
  have hstep : emitF (fuel + 1) st k v =
      { st with
        cells := setCell st.cells k (some { key := k, payload := v, timestamp := st.now })
        now := st.now + 1
        log := st.log
          ++ (LogEntry.invokedEvt i { key := k, payload := applyTf tf1 v, timestamp := st.now }
              :: simpleTrace cb1 i)
          ++ [LogEntry.invokedEvt j { key := k, payload := applyTf tf2 v, timestamp := st.now }] } := by
    rcases hcb with rfl | rfl
    · exact emit_step_two fuel st k v tf1 tf2 CbSpec.syncThrow i j h1 h2n hw hp hij
        (by simp [CbSimple])
    · exact emit_step_two fuel st k v tf1 tf2 CbSpec.asyncReject i j h1 h2n hw hp hij
        (by simp [CbSimple])
  have htrace : simpleTrace cb1 i = [LogEntry.errorReported i] := by
    rcases hcb with rfl | rfl <;> rfl
  refine ⟨?_, ?_, ?_, ?_⟩
  · rw [hstep]
    simp [htrace]
  · rw [hstep]
    exact hp
  · simp [emitF, hp2, hw2, dependsOn, runOneWith, runCbWith, pushLog,
      combineLatestToSignal, lookupCell_setCell_self, List.append_assoc]
  · simp [emitF, hp2, hw2, dependsOn, runOneWith, runCbWith, pushLog,
      combineLatestToSignal, lookupCell_setCell_self, hp2]

/-- C3 amended witness: concrete two-subscriber bus with a throwing
first callback and a concrete combine watcher with a rejecting
callback. -/
theorem claim3_witness :
    (c3stA.watchers =
      [{ id := 1, kind := WKind.mainV2 0 "k" none CbSpec.syncThrow false, destroyed := false },
       { id := 2, kind := WKind.mainV2 0 "k" none CbSpec.pure false, destroyed := false }])
    ∧ c3stA.panicked = false ∧ (1 : Nat) ≠ 2
    ∧ (CbSpec.syncThrow = CbSpec.syncThrow ∨ CbSpec.syncThrow = CbSpec.asyncReject)
    ∧ (c3stB.watchers =
      [{ id := 1, kind := WKind.combineV2 [{ key := "k", transform := none }] CbSpec.asyncReject
         destroyed := false }])
    ∧ c3stB.panicked = false
    ∧ ((emitF 1 c3stA "k" (Val.num 5)).log
        = c3stA.log
          ++ [LogEntry.invokedEvt 1 { key := "k", payload := applyTf none (Val.num 5), timestamp := c3stA.now },
              LogEntry.errorReported 1,
              LogEntry.invokedEvt 2 { key := "k", payload := applyTf none (Val.num 5), timestamp := c3stA.now }]
      ∧ (emitF 1 c3stA "k" (Val.num 5)).panicked = false
      ∧ (emitF 1 c3stB "k" (Val.num 5)).log
        = c3stB.log ++ [LogEntry.invokedEvts 1
              [{ key := "k", payload := applyTf none (Val.num 5), timestamp := c3stB.now + 1 }],
            LogEntry.errorReported 1]
      ∧ (emitF 1 c3stB "k" (Val.num 5)).panicked = false) :=
  ⟨rfl, rfl, by decide, Or.inl rfl, rfl, rfl,
   claim3_amended_failure_isolation 0 c3stA c3stB "k" (Val.num 5) none none none
     CbSpec.syncThrow 1 2 0 0 1 rfl rfl (by decide) (Or.inl rfl) rfl rfl⟩

/-- A bus whose single watcher is live and registered under one key
satisfies registered-iff-live. -/
lemma regIffLive_single (st : BusState) (ck : String) (i : Nat) (wk : WKind)
    (hreg : st.registry = [(ck, [i])])
    (hw : st.watchers = [{ id := i, kind := wk, destroyed := false }]) :
    RegIffLive st := by
  intro w hwm
  rw [hw] at hwm
  simp only [List.mem_cons, List.not_mem_nil, or_false] at hwm
  subst hwm
  simp [regAllIds, hreg]

/-- `unsubscribe(key)` on a bus whose single watcher is live and
registered under one composite key preserves registered-iff-live: either
the key misses the registry and nothing changes, or the watcher is both
destroyed and deregistered. -/
lemma unsubscribeKey_single (st : BusState) (ck k : String) (i : Nat) (wk : WKind)
    (hreg : st.registry = [(ck, [i])])
    (hw : st.watchers = [{ id := i, kind := wk, destroyed := false }]) :
    RegIffLive (unsubscribeKey st k) := by
  cases hck : ((ck == k) : Bool) with
  | false =>
    have hmain : unsubscribeKey st k = st := by
      unfold unsubscribeKey
      rw [hreg]
      simp [lookupReg, List.find?_cons, hck]
    rw [hmain]
    exact regIffLive_single st ck i wk hreg hw
  | true =>
    have hmain : unsubscribeKey st k
        = { st with watchers := [{ id := i, kind := wk, destroyed := true }]
                    registry := [] } := by
      unfold unsubscribeKey
      rw [hreg]
      simp [lookupReg, List.find?_cons, hck, hw, destroyW, regDeleteKey]
    rw [hmain]
    intro w hwm
    simp only [List.mem_cons, List.not_mem_nil, or_false] at hwm
    subst hwm
    simp [regAllIds]

/-- The unsubscribe closure of V2 `combineLatest` on a bus whose single
watcher is live and registered under the composite key destroys the
watcher and empties the registry, preserving registered-iff-live. -/
lemma combineV2Unsub_single (st : BusState) (ck : String) (i : Nat) (wk : WKind)
    (hreg : st.registry = [(ck, [i])])
    (hw : st.watchers = [{ id := i, kind := wk, destroyed := false }]) :
    RegIffLive (combineV2Unsub st ck)
    ∧ (combineV2Unsub st ck).watchers.map Watcher.destroyed = [true]
    ∧ (combineV2Unsub st ck).registry = [] := by
  have hlook : lookupReg st.registry ck = some [i] := by
    rw [hreg]
    simp [lookupReg]
  have hmain : combineV2Unsub st ck =
      { st with watchers := [{ id := i, kind := wk, destroyed := true }]
                registry := [] } := by
    unfold combineV2Unsub
    rw [hlook]
    simp [hw, destroyW, regDeleteKey, hreg]
  rw [hmain]
  refine ⟨?_, rfl, rfl⟩
  intro w hwm
  simp only [List.mem_cons, List.not_mem_nil, or_false] at hwm
  subst hwm
  simp [regAllIds]

/-- C9 counterexample. In the first variant, `combineLatest` registers
the same effect once under each source key; `unsubscribe("a")` on a
`combineLatest(["a", "b"])` subscription destroys the watcher but leaves
it registered under `"b"`, so a destroyed watcher remains in the
registry and registered-iff-live fails. -/
theorem claim9_counterexample :
    ¬ RegIffLive (unsubscribeKey (combineLatestV1 st0
      [{ key := "a", transform := none }, { key := "b", transform := none }]
      CbSpec.pure).1 "a")
    ∧ watcherDestroyed (unsubscribeKey (combineLatestV1 st0
      [{ key := "a", transform := none }, { key := "b", transform := none }]
      CbSpec.pure).1 "a") 0 = true
    ∧ (unsubscribeKey (combineLatestV1 st0
      [{ key := "a", transform := none }, { key := "b", transform := none }]
      CbSpec.pure).1 "a").registry = [("b", [0])] := by
  refine ⟨?_, by decide, by decide⟩
  unfold RegIffLive
  decide

/-- C9 amended. In the second variant, a `combineLatest` subscription is
registered under a single composite key, and the registered-iff-live
invariant survives the claimed scenario: it holds after subscribing,
after `unsubscribe(k)` for any key `k`, and after invoking the returned
unsubscribe closure, which destroys the watcher and empties the
registry together; in the first variant, `unsubscribe(one source key)`
leaves the destroyed watcher registered under the other source keys
(see the counterexample). -/
theorem claim9_amended_registry_iff_live (srcs : List Source) (cb : CbSpec) (k : String) :
    RegIffLive (combineLatestV2 st0 srcs cb).1
    ∧ RegIffLive (unsubscribeKey (combineLatestV2 st0 srcs cb).1 k)
    ∧ RegIffLive (combineV2Unsub (combineLatestV2 st0 srcs cb).1
        (combineLatestV2 st0 srcs cb).2)
    ∧ ((combineV2Unsub (combineLatestV2 st0 srcs cb).1
        (combineLatestV2 st0 srcs cb).2).watchers.map Watcher.destroyed = [true])
    ∧ (combineV2Unsub (combineLatestV2 st0 srcs cb).1
        (combineLatestV2 st0 srcs cb).2).registry = [] := by
  have hreg : (combineLatestV2 st0 srcs cb).1.registry
      = [((combineLatestV2 st0 srcs cb).2, [0])] := by
    simp [combineLatestV2, st0, regAdd]
  have hw : (combineLatestV2 st0 srcs cb).1.watchers
      = [{ id := 0, kind := WKind.combineV2 srcs cb, destroyed := false }] := by
    simp [combineLatestV2, st0]
  have hco := combineV2Unsub_single (combineLatestV2 st0 srcs cb).1
    (combineLatestV2 st0 srcs cb).2 0 (WKind.combineV2 srcs cb) hreg hw
  exact ⟨regIffLive_single _ _ 0 _ hreg hw,
    unsubscribeKey_single _ _ k 0 _ hreg hw, hco.1, hco.2.1, hco.2.2⟩

end EventBus
